import Mathlib

/-!
Verification of the `go2_d1_control` package: a thin DDS client for the
Unitree D1 robotic arm.  The package has two source files:

* `src/go2_d1_control/messages.py` — the DDS message types `ArmString`
  (a one-field JSON-string envelope) and `PubServoInfo` (seven float32
  servo angles with an `as_list` accessor);
* `src/go2_d1_control/controller.py` — `D1ArmController`, which builds
  JSON command payloads (`funcode`, `data`, `seq`, `address`), serializes
  them with `json.dumps`, and publishes them on a command topic.

The embedding below models Python JSON values as an inductive `JVal`
(objects are key/value lists in insertion order, matching Python dicts),
Python numbers as `PyNum` (keeping the int/float distinction that
`json.dumps` renders differently), and the controller as a record holding
its `_seq` counter, the ordered list of payload objects handed to the DDS
writer, and the console output produced by `print`.  DDS transport
(participant, topics, writer/reader objects) is external middleware and is
out of scope; publishing a message is modeled as appending its payload to
the `sent` list.
-/

/-- Model of a Python number as it appears in these JSON payloads.
`json.dumps` renders ints and floats differently (`3` vs `3.0`), so the
distinction is kept.  Float values are carried as exact rationals: the
controller never does arithmetic on angles, it only passes them through. -/
inductive PyNum where
  | int (n : Int)
  | float (q : Rat)
deriving DecidableEq, Repr

/-- Model of a Python/JSON value as used by `controller.py`.  An object is
its key/value pairs in insertion order, exactly how a Python dict iterates
when `json.dumps` serializes it. -/
inductive JVal where
  | jnum (n : PyNum)
  | jstr (s : String)
  | jobj (o : List (String × JVal))
deriving Repr

/-- A JSON object: key/value pairs in insertion order. -/
abbrev JObj := List (String × JVal)

/-- Key lookup in a JSON object (first match; the payloads built by the
controller have distinct keys, as Python dict keys are unique). -/
def lookupKey : JObj → String → Option JVal
  | [], _ => none
  | (k, v) :: rest, key => if k = key then some v else lookupKey rest key

/-- Rendering of a number by `json.dumps`: ints in decimal, floats with a
decimal point.  Exact for integral floats (`45.0` → `"45.0"`); non-integral
floats are rendered as rationals, a deterministic stand-in for Python's
shortest-round-trip float repr, which no claim depends on. -/
def pyNumStr : PyNum → String
  | .int n => toString n
  | .float q => if q.den = 1 then toString q.num ++ ".0" else toString q

/-- Escape of one character inside a JSON string, as `json.dumps` does for
the characters that occur in these payloads (keys are plain ASCII). -/
def escChar (c : Char) : String :=
  if c = '\\' then "\\\\" else if c = '"' then "\\\"" else String.singleton c

/-- A JSON string literal with quotes, as rendered by `json.dumps`. -/
def quoteStr (s : String) : String :=
  "\"" ++ String.join (s.toList.map escChar) ++ "\""

mutual

/-- Serialization of a JSON value, mirroring Python `json.dumps` with its
default separators `", "` and `": "` and dict insertion order. -/
def dumpVal : JVal → String
  | .jnum n => pyNumStr n
  | .jstr s => quoteStr s
  | .jobj o => "\x7b" ++ dumpFields o ++ "\x7d"

/-- Serialization of the key/value pairs of a JSON object, in order,
joined by `", "`. -/
def dumpFields : List (String × JVal) → String
  | [] => ""
  | [kv] => quoteStr kv.1 ++ ": " ++ dumpVal kv.2
  | kv :: rest => quoteStr kv.1 ++ ": " ++ dumpVal kv.2 ++ ", " ++ dumpFields rest

end

/-- The DDS envelope from `messages.py`: commands travel as a JSON string
in the single `data_` field of `ArmString`. -/
structure ArmString where
  data_ : String
deriving DecidableEq, Repr

/-- Telemetry type from `messages.py`: the current angle of each of the
seven servos.  The fields are `float32` on the wire; since `as_list` only
passes them through with no arithmetic, their values are carried as exact
rationals here. -/
structure PubServoInfo where
  servo0_data_ : Rat
  servo1_data_ : Rat
  servo2_data_ : Rat
  servo3_data_ : Rat
  servo4_data_ : Rat
  servo5_data_ : Rat
  servo6_data_ : Rat
deriving DecidableEq, Repr

/-- A default-constructed `PubServoInfo()`: every field defaults to `0.0`
in the source dataclass. -/
def PubServoInfo.mkDefault : PubServoInfo :=
  ⟨0, 0, 0, 0, 0, 0, 0⟩

/-- `PubServoInfo.as_list`: all joint angles as a list, servo 0 first. -/
def PubServoInfo.as_list (self : PubServoInfo) : List Rat :=
  [ self.servo0_data_,
    self.servo1_data_,
    self.servo2_data_,
    self.servo3_data_,
    self.servo4_data_,
    self.servo5_data_,
    self.servo6_data_ ]

/-- State of a `D1ArmController` from `controller.py`.  `seq` is the
`_seq` command counter; `sent` is the ordered list of JSON payload objects
handed to `cmd_writer.write` (each is serialized by `dumpVal` into the
`data_` field of an `ArmString` on the wire); `logs` is the console output
of `print`, in order.  The DDS participant/topic/writer/reader objects are
external middleware state and carry no information the claims mention. -/
structure D1ArmController where
  seq : Nat
  sent : List JObj
  logs : List String
deriving Repr

/-- `D1ArmController.JOINT_NAMES`: joint names for output. -/
def D1ArmController.JOINT_NAMES : List String :=
  [ "Base rotation",
    "Shoulder pitch",
    "Shoulder roll",
    "Elbow pitch",
    "Wrist pitch",
    "Wrist roll",
    "Gripper" ]

/-- `D1ArmController.__init__`: prints two startup lines, builds the DDS
objects (external, not modeled), and sets the command counter `_seq = 0`.
No command has been sent yet. -/
def D1ArmController.init : D1ArmController :=
  { seq := 0
    sent := []
    logs := ["Initializing D1 Arm Controller...", "D1 Arm Controller ready."] }

/-- Wire form of one published payload: `ArmString(data_=json.dumps(payload))`. -/
def wireOf (o : JObj) : ArmString :=
  ⟨dumpVal (.jobj o)⟩

/-- `D1ArmController._send`: sets `payload["seq"]` to the current counter
and `payload["address"] = 1` (fresh keys, so Python appends them in that
order), serializes the payload to JSON, writes it to the command topic,
then increments the counter. -/
def D1ArmController._send (self : D1ArmController) (payload : JObj) : D1ArmController :=
  let payload2 := payload ++ [("seq", JVal.jnum (.int self.seq)), ("address", JVal.jnum (.int 1))]
  { self with sent := self.sent ++ [payload2], seq := self.seq + 1 }

/-- `D1ArmController.move_joint`: move a single joint to a target angle.
Validates `0 ≤ joint_id ≤ 6`; out of range it prints an error and returns
without sending.  On success it sends funcode 1 with
`data = {id, angle, delay_ms}` and prints a status line.  The Python
default `delay_ms=0` is passed explicitly by callers of this model. -/
def D1ArmController.move_joint (self : D1ArmController) (joint_id : Int)
    (angle : PyNum) (delay_ms : Int) : D1ArmController :=
  if joint_id < 0 ∨ joint_id > 6 then
    { self with logs := self.logs ++ ["Error: joint_id must be 0-6, got " ++ toString joint_id] }
  else
    let st := self._send
      [ ("funcode", JVal.jnum (.int 1)),
        ("data", JVal.jobj
          [ ("id", JVal.jnum (.int joint_id)),
            ("angle", JVal.jnum angle),
            ("delay_ms", JVal.jnum (.int delay_ms)) ]) ]
    { st with logs := st.logs ++
        ["Joint " ++ toString joint_id ++ " (" ++
          (D1ArmController.JOINT_NAMES.getD joint_id.toNat "") ++ ") -> " ++
          pyNumStr angle ++ " deg"] }

/-- Python list repr of an angle list, for the `move_all_joints` log line. -/
def anglesRepr (angles : List PyNum) : String :=
  "[" ++ String.intercalate ", " (angles.map pyNumStr) ++ "]"

/-- `D1ArmController.move_all_joints`: move all 7 joints simultaneously.
Validates `len(angles) == 7`; otherwise prints an error and returns
without sending.  On success it sends funcode 2 with
`data = {mode: 1, angle0..angle6}` (the list indexing `angles[0]` …
`angles[6]` is total here via `getD`; the default is never reached since
the length is exactly 7 in this branch) and prints a status line. -/
def D1ArmController.move_all_joints (self : D1ArmController)
    (angles : List PyNum) : D1ArmController :=
  if angles.length ≠ 7 then
    { self with logs := self.logs ++
        ["Error: expected 7 angles, got " ++ toString angles.length] }
  else
    let st := self._send
      [ ("funcode", JVal.jnum (.int 2)),
        ("data", JVal.jobj
          [ ("mode", JVal.jnum (.int 1)),
            ("angle0", JVal.jnum (angles.getD 0 (.int 0))),
            ("angle1", JVal.jnum (angles.getD 1 (.int 0))),
            ("angle2", JVal.jnum (angles.getD 2 (.int 0))),
            ("angle3", JVal.jnum (angles.getD 3 (.int 0))),
            ("angle4", JVal.jnum (angles.getD 4 (.int 0))),
            ("angle5", JVal.jnum (angles.getD 5 (.int 0))),
            ("angle6", JVal.jnum (angles.getD 6 (.int 0))) ]) ]
    { st with logs := st.logs ++ ["All joints -> " ++ anglesRepr angles] }

/-- `D1ArmController.enable_joints`: enable (`mode=0`, the Python default
argument, passed explicitly by callers of this model) or disable
(`mode=1`) the joints.  No validation; sends funcode 5 with
`data = {mode}` and prints a status line. -/
def D1ArmController.enable_joints (self : D1ArmController) (mode : Int) : D1ArmController :=
  let st := self._send [("funcode", JVal.jnum (.int 5)), ("data", JVal.jobj [("mode", JVal.jnum (.int mode))])]
  { st with logs := st.logs ++
      [if mode = 0 then "Joints enabled" else "Joints disabled"] }

/-- `D1ArmController.go_to_zero`: move the arm to the zero position.
Sends funcode 7 with no `data` key and prints a status line. -/
def D1ArmController.go_to_zero (self : D1ArmController) : D1ArmController :=
  let st := self._send [("funcode", JVal.jnum (.int 7))]
  { st with logs := st.logs ++ ["Moving to zero position..."] }

/-- One invocation of a public command method of `D1ArmController`, with
its arguments.  This lets properties quantify over arbitrary sequences of
calls on one controller. -/
inductive Op where
  | moveJoint (joint_id : Int) (angle : PyNum) (delay_ms : Int)
  | moveAllJoints (angles : List PyNum)
  | enableJoints (mode : Int)
  | goToZero
deriving Repr

/-- Dispatch of one command-method call on a controller state. -/
def applyOp (st : D1ArmController) : Op → D1ArmController
  | .moveJoint j a d => st.move_joint j a d
  | .moveAllJoints angles => st.move_all_joints angles
  | .enableJoints m => st.enable_joints m
  | .goToZero => st.go_to_zero

/-- Controller state after a sequence of command-method calls on a freshly
constructed controller. -/
def runOps (ops : List Op) : D1ArmController :=
  ops.foldl applyOp D1ArmController.init

/-- The payload objects one call publishes (none when validation fails,
one on a successful send), given the counter value at the call. -/
def emitted (seqv : Nat) : Op → List JObj
  | .moveJoint j a d =>
      if j < 0 ∨ j > 6 then []
      else
        [[ ("funcode", JVal.jnum (.int 1)),
           ("data", JVal.jobj
             [ ("id", JVal.jnum (.int j)),
               ("angle", JVal.jnum a),
               ("delay_ms", JVal.jnum (.int d)) ]),
           ("seq", JVal.jnum (.int seqv)),
           ("address", JVal.jnum (.int 1)) ]]
  | .moveAllJoints angles =>
      if angles.length ≠ 7 then []
      else
        [[ ("funcode", JVal.jnum (.int 2)),
           ("data", JVal.jobj
             [ ("mode", JVal.jnum (.int 1)),
               ("angle0", JVal.jnum (angles.getD 0 (.int 0))),
               ("angle1", JVal.jnum (angles.getD 1 (.int 0))),
               ("angle2", JVal.jnum (angles.getD 2 (.int 0))),
               ("angle3", JVal.jnum (angles.getD 3 (.int 0))),
               ("angle4", JVal.jnum (angles.getD 4 (.int 0))),
               ("angle5", JVal.jnum (angles.getD 5 (.int 0))),
               ("angle6", JVal.jnum (angles.getD 6 (.int 0))) ]),
           ("seq", JVal.jnum (.int seqv)),
           ("address", JVal.jnum (.int 1)) ]]
  | .enableJoints m =>
      [[ ("funcode", JVal.jnum (.int 5)),
         ("data", JVal.jobj [("mode", JVal.jnum (.int m))]),
         ("seq", JVal.jnum (.int seqv)),
         ("address", JVal.jnum (.int 1)) ]]
  | .goToZero =>
      [[ ("funcode", JVal.jnum (.int 7)),
         ("seq", JVal.jnum (.int seqv)),
         ("address", JVal.jnum (.int 1)) ]]

theorem applyOp_sent (st : D1ArmController) (op : Op) :
    (applyOp st op).sent = st.sent ++ emitted st.seq op := by
  cases op with
  | moveJoint j a d =>
      by_cases h : j < 0 ∨ j > 6 <;>
        simp [applyOp, D1ArmController.move_joint, D1ArmController._send, emitted, h]
  | moveAllJoints angles =>
      by_cases h : angles.length ≠ 7 <;>
        simp [applyOp, D1ArmController.move_all_joints, D1ArmController._send, emitted, h]
  | enableJoints m =>
      simp [applyOp, D1ArmController.enable_joints, D1ArmController._send, emitted]
  | goToZero =>
      simp [applyOp, D1ArmController.go_to_zero, D1ArmController._send, emitted]

theorem applyOp_seq (st : D1ArmController) (op : Op) :
    (applyOp st op).seq = st.seq + (emitted st.seq op).length := by
  cases op with
  | moveJoint j a d =>
      by_cases h : j < 0 ∨ j > 6 <;>
        simp [applyOp, D1ArmController.move_joint, D1ArmController._send, emitted, h]
  | moveAllJoints angles =>
      by_cases h : angles.length ≠ 7 <;>
        simp [applyOp, D1ArmController.move_all_joints, D1ArmController._send, emitted, h]
  | enableJoints m =>
      simp [applyOp, D1ArmController.enable_joints, D1ArmController._send, emitted]
  | goToZero =>
      simp [applyOp, D1ArmController.go_to_zero, D1ArmController._send, emitted]

theorem emitted_length_le (seqv : Nat) (op : Op) : (emitted seqv op).length ≤ 1 := by
  cases op <;> simp [emitted] <;> split <;> simp

/-- Every record a single call emits carries the counter value at that call
in its `seq` field and the constant device address 1. -/
theorem emitted_fields (seqv : Nat) (op : Op) :
    ∀ r ∈ emitted seqv op,
      lookupKey r "seq" = some (.jnum (.int seqv)) ∧
      lookupKey r "address" = some (.jnum (.int 1)) := by
  cases op with
  | moveJoint j a d =>
      by_cases h : j < 0 ∨ j > 6 <;> simp [emitted, h, lookupKey]
  | moveAllJoints angles =>
      by_cases h : angles.length ≠ 7 <;> simp [emitted, h, lookupKey]
  | enableJoints m => simp [emitted, lookupKey]
  | goToZero => simp [emitted, lookupKey]

/-- Invariant tying the command counter to the publication history: the
counter equals the number of messages sent so far, and the `seq` fields of
the sent records are `0, 1, 2, …` in order. -/
def seqInv (st : D1ArmController) : Prop :=
  st.seq = st.sent.length ∧
  st.sent.map (fun r => lookupKey r "seq") =
    (List.range st.sent.length).map (fun n : Nat => some (JVal.jnum (.int (n : Int))))

theorem seqInv_step (st : D1ArmController) (op : Op) (h : seqInv st) :
    seqInv (applyOp st op) := by
  obtain ⟨h1, h2⟩ := h
  have hs := applyOp_sent st op
  have hq := applyOp_seq st op
  rcases he : emitted st.seq op with _ | ⟨r, rest⟩
  · refine ⟨?_, ?_⟩
    · rw [hq, hs, he]; simp [h1]
    · rw [hs, he]; simpa using h2
  · have hrest : rest = [] := by
      have hle := emitted_length_le st.seq op
      rw [he] at hle; simpa using hle
    subst hrest
    have hr := (emitted_fields st.seq op r (by rw [he]; exact List.mem_singleton.mpr rfl)).1
    refine ⟨?_, ?_⟩
    · rw [hq, hs, he]; simp [h1]
    · rw [hs, he]
      simp only [List.map_append, List.length_append, List.map_cons, List.map_nil,
        List.length_cons, List.length_nil, List.range_succ, h2, hr]
      simp [h1]

theorem seqInv_runAux :
    ∀ (ops : List Op) (st : D1ArmController), seqInv st → seqInv (ops.foldl applyOp st)
  | [], _, h => h
  | op :: rest, st, h => seqInv_runAux rest _ (seqInv_step st op h)

theorem seqInv_run (ops : List Op) : seqInv (runOps ops) :=
  seqInv_runAux ops _ ⟨rfl, rfl⟩

/-- Invariant for the device address: every record published so far
carries `address = 1`. -/
def addrInv (st : D1ArmController) : Prop :=
  ∀ r ∈ st.sent, lookupKey r "address" = some (.jnum (.int 1))

theorem addrInv_step (st : D1ArmController) (op : Op) (h : addrInv st) :
    addrInv (applyOp st op) := by
  intro r hr
  rw [applyOp_sent] at hr
  rcases List.mem_append.mp hr with hmem | hmem
  · exact h r hmem
  · exact (emitted_fields st.seq op r hmem).2

theorem addrInv_runAux :
    ∀ (ops : List Op) (st : D1ArmController), addrInv st → addrInv (ops.foldl applyOp st)
  | [], _, h => h
  | op :: rest, st, h => addrInv_runAux rest _ (addrInv_step st op h)

theorem addrInv_run (ops : List Op) : addrInv (runOps ops) :=
  addrInv_runAux ops _ (by intro r hr; cases hr)

/-- C1: on every sequence of command calls on a freshly constructed
controller, the counter starts at 0, always equals the number of
successful sends (so each successful send increments it by exactly 1 and
it is never reset), and the n-th published record (counting from 0)
carries `seq = n`. -/
theorem c1_seq_counter :
    D1ArmController.init.seq = 0 ∧
    ∀ ops : List Op,
      (runOps ops).seq = (runOps ops).sent.length ∧
      ∀ (n : Nat) (r : JObj), ((runOps ops).sent)[n]? = some r →
        lookupKey r "seq" = some (.jnum (.int n)) := by
  refine ⟨rfl, fun ops => ⟨(seqInv_run ops).1, fun n r hr => ?_⟩⟩
  have h2 := (seqInv_run ops).2
  have hn : n < (runOps ops).sent.length := by
    by_contra hcon
    push_neg at hcon
    rw [List.getElem?_eq_none hcon] at hr
    cases hr
  have hmap : ((runOps ops).sent.map (fun rec => lookupKey rec "seq"))[n]? =
      some (lookupKey r "seq") := by
    simp [List.getElem?_map, hr]
  rw [h2] at hmap
  simp [List.getElem?_map, List.getElem?_range hn] at hmap
  exact hmap.symm

theorem c1_seq_counter_witness :
    lookupKey [("funcode", JVal.jnum (.int 7)), ("seq", JVal.jnum (.int 0)),
      ("address", JVal.jnum (.int 1))] "seq" = some (.jnum (.int 0)) :=
  (c1_seq_counter.2 [.goToZero]).2 0
    [("funcode", JVal.jnum (.int 7)), ("seq", JVal.jnum (.int 0)),
      ("address", JVal.jnum (.int 1))] rfl

/-- C2: `move_joint` with a `joint_id` outside [0,6] prints an error line,
publishes no message, and leaves the controller state — the sequence
counter and publication history — unchanged; being a total function, it
raises nothing to the caller. -/
theorem c2_move_joint_invalid (st : D1ArmController) (joint_id : Int)
    (angle : PyNum) (delay_ms : Int) (h : joint_id < 0 ∨ joint_id > 6) :
    (st.move_joint joint_id angle delay_ms).sent = st.sent ∧
    (st.move_joint joint_id angle delay_ms).seq = st.seq ∧
    (st.move_joint joint_id angle delay_ms).logs =
      st.logs ++ ["Error: joint_id must be 0-6, got " ++ toString joint_id] := by
  simp [D1ArmController.move_joint, h]

theorem c2_move_joint_invalid_witness :
    ((7 : Int) < 0 ∨ (7 : Int) > 6) ∧
    ((D1ArmController.init.move_joint 7 (.float 45) 0).sent = D1ArmController.init.sent ∧
     (D1ArmController.init.move_joint 7 (.float 45) 0).seq = D1ArmController.init.seq ∧
     (D1ArmController.init.move_joint 7 (.float 45) 0).logs =
       D1ArmController.init.logs ++ ["Error: joint_id must be 0-6, got " ++ toString (7 : Int)]) :=
  ⟨by decide, c2_move_joint_invalid D1ArmController.init 7 (.float 45) 0 (by decide)⟩

/-- C3: `move_all_joints` with an angle list whose length is not 7 prints
an error line, publishes no message, and leaves the sequence counter and
publication history unchanged (no partial transmission). -/
theorem c3_move_all_joints_invalid (st : D1ArmController) (angles : List PyNum)
    (h : angles.length ≠ 7) :
    (st.move_all_joints angles).sent = st.sent ∧
    (st.move_all_joints angles).seq = st.seq ∧
    (st.move_all_joints angles).logs =
      st.logs ++ ["Error: expected 7 angles, got " ++ toString angles.length] := by
  simp [D1ArmController.move_all_joints, h]

theorem c3_move_all_joints_invalid_witness :
    (([] : List PyNum).length ≠ 7) ∧
    ((D1ArmController.init.move_all_joints []).sent = D1ArmController.init.sent ∧
     (D1ArmController.init.move_all_joints []).seq = D1ArmController.init.seq ∧
     (D1ArmController.init.move_all_joints []).logs =
       D1ArmController.init.logs ++ ["Error: expected 7 angles, got " ++ toString ([] : List PyNum).length]) :=
  ⟨by decide, c3_move_all_joints_invalid D1ArmController.init [] (by decide)⟩

/-- C4: on a fresh controller, `move_joint(3, 45.0)` publishes exactly one
message, whose payload is the JSON object
`{"funcode": 1, "data": {"id": 3, "angle": 45.0, "delay_ms": 0}, "seq": 0,
"address": 1}`; the second conjunct shows the serialized wire string. -/
theorem c4_move_joint_scenario :
    (D1ArmController.init.move_joint 3 (.float 45) 0).sent =
      [[ ("funcode", JVal.jnum (.int 1)),
         ("data", JVal.jobj
           [ ("id", JVal.jnum (.int 3)),
             ("angle", JVal.jnum (.float 45)),
             ("delay_ms", JVal.jnum (.int 0)) ]),
         ("seq", JVal.jnum (.int 0)),
         ("address", JVal.jnum (.int 1)) ]] ∧
    (D1ArmController.init.move_joint 3 (.float 45) 0).sent.map wireOf =
      [⟨"\x7b\"funcode\": 1, \"data\": \x7b\"id\": 3, \"angle\": 45.0, \"delay_ms\": 0\x7d, \"seq\": 0, \"address\": 1\x7d"⟩] := by
  constructor <;> rfl

/-- C5: for every 7-element angle list, `move_all_joints` publishes one
record decoding to `funcode = 2`, `data.mode = 1` and `data.angle_i` equal
to input angle `i`; instantiated on the spec's list `[0,10,20,30,40,50,60]`
in the final conjunct. -/
theorem c5_move_all_joints_roundtrip :
    (∀ (st : D1ArmController) (a0 a1 a2 a3 a4 a5 a6 : PyNum),
      ∃ r, (st.move_all_joints [a0, a1, a2, a3, a4, a5, a6]).sent = st.sent ++ [r] ∧
        lookupKey r "funcode" = some (.jnum (.int 2)) ∧
        ∃ d, lookupKey r "data" = some (.jobj d) ∧
          lookupKey d "mode" = some (.jnum (.int 1)) ∧
          lookupKey d "angle0" = some (.jnum a0) ∧
          lookupKey d "angle1" = some (.jnum a1) ∧
          lookupKey d "angle2" = some (.jnum a2) ∧
          lookupKey d "angle3" = some (.jnum a3) ∧
          lookupKey d "angle4" = some (.jnum a4) ∧
          lookupKey d "angle5" = some (.jnum a5) ∧
          lookupKey d "angle6" = some (.jnum a6)) ∧
    (D1ArmController.init.move_all_joints
        [.int 0, .int 10, .int 20, .int 30, .int 40, .int 50, .int 60]).sent =
      [[ ("funcode", JVal.jnum (.int 2)),
         ("data", JVal.jobj
           [ ("mode", JVal.jnum (.int 1)),
             ("angle0", JVal.jnum (.int 0)),
             ("angle1", JVal.jnum (.int 10)),
             ("angle2", JVal.jnum (.int 20)),
             ("angle3", JVal.jnum (.int 30)),
             ("angle4", JVal.jnum (.int 40)),
             ("angle5", JVal.jnum (.int 50)),
             ("angle6", JVal.jnum (.int 60)) ]),
         ("seq", JVal.jnum (.int 0)),
         ("address", JVal.jnum (.int 1)) ]] := by
  refine ⟨fun st a0 a1 a2 a3 a4 a5 a6 => ?_, rfl⟩
  refine ⟨[ ("funcode", JVal.jnum (.int 2)),
            ("data", JVal.jobj
              [ ("mode", JVal.jnum (.int 1)),
                ("angle0", JVal.jnum a0),
                ("angle1", JVal.jnum a1),
                ("angle2", JVal.jnum a2),
                ("angle3", JVal.jnum a3),
                ("angle4", JVal.jnum a4),
                ("angle5", JVal.jnum a5),
                ("angle6", JVal.jnum a6) ]),
            ("seq", JVal.jnum (.int st.seq)),
            ("address", JVal.jnum (.int 1)) ], ?_, rfl,
          [ ("mode", JVal.jnum (.int 1)),
            ("angle0", JVal.jnum a0),
            ("angle1", JVal.jnum a1),
            ("angle2", JVal.jnum a2),
            ("angle3", JVal.jnum a3),
            ("angle4", JVal.jnum a4),
            ("angle5", JVal.jnum a5),
            ("angle6", JVal.jnum a6) ], rfl, rfl, rfl, rfl, rfl, rfl, rfl, rfl, rfl⟩
  simp [D1ArmController.move_all_joints, D1ArmController._send]

/-- C6: `go_to_zero` always publishes one record decoding to `funcode = 7`
with no `data` key at all (absent, not empty or null). -/
theorem c6_go_to_zero (st : D1ArmController) :
    ∃ r, st.go_to_zero.sent = st.sent ++ [r] ∧
      lookupKey r "funcode" = some (.jnum (.int 7)) ∧
      lookupKey r "data" = none ∧
      "data" ∉ r.map Prod.fst := by
  refine ⟨[("funcode", JVal.jnum (.int 7)), ("seq", JVal.jnum (.int st.seq)),
           ("address", JVal.jnum (.int 1))], ?_, rfl, rfl, by simp⟩
  simp [D1ArmController.go_to_zero, D1ArmController._send]

/-- C7: `enable_joints` validates nothing — every integer mode is sent as
`funcode = 5`, `data = {mode}`; and the spec scenario `enable_joints(1)`
then `enable_joints()` (Python default mode 0) on a fresh controller
yields two messages with `data.mode` 1 then 0 and `seq` 0 then 1. -/
theorem c7_enable_joints :
    (∀ (st : D1ArmController) (mode : Int),
      (st.enable_joints mode).sent = st.sent ++
        [[ ("funcode", JVal.jnum (.int 5)),
           ("data", JVal.jobj [("mode", JVal.jnum (.int mode))]),
           ("seq", JVal.jnum (.int st.seq)),
           ("address", JVal.jnum (.int 1)) ]]) ∧
    ((D1ArmController.init.enable_joints 1).enable_joints 0).sent =
      [ [ ("funcode", JVal.jnum (.int 5)),
          ("data", JVal.jobj [("mode", JVal.jnum (.int 1))]),
          ("seq", JVal.jnum (.int 0)),
          ("address", JVal.jnum (.int 1)) ],
        [ ("funcode", JVal.jnum (.int 5)),
          ("data", JVal.jobj [("mode", JVal.jnum (.int 0))]),
          ("seq", JVal.jnum (.int 1)),
          ("address", JVal.jnum (.int 1)) ] ] := by
  refine ⟨fun st mode => ?_, rfl⟩
  simp [D1ArmController.enable_joints, D1ArmController._send]

/-- C8: every record published over any call sequence on a fresh
controller carries `address = 1`, regardless of operation. -/
theorem c8_address_always_one (ops : List Op) :
    ∀ r ∈ (runOps ops).sent, lookupKey r "address" = some (.jnum (.int 1)) :=
  addrInv_run ops

theorem c8_address_always_one_witness :
    lookupKey [("funcode", JVal.jnum (.int 7)), ("seq", JVal.jnum (.int 0)),
      ("address", JVal.jnum (.int 1))] "address" = some (.jnum (.int 1)) :=
  c8_address_always_one [.goToZero] _ (List.mem_singleton.mpr rfl)

/-- C9: `as_list` returns exactly 7 elements, element `i` being the
`servo i` field (fixed joint order, base rotation first, gripper last),
and a default-constructed sample lists seven zeros. -/
theorem c9_as_list (p : PubServoInfo) :
    p.as_list.length = 7 ∧
    p.as_list.getD 0 0 = p.servo0_data_ ∧
    p.as_list.getD 1 0 = p.servo1_data_ ∧
    p.as_list.getD 2 0 = p.servo2_data_ ∧
    p.as_list.getD 3 0 = p.servo3_data_ ∧
    p.as_list.getD 4 0 = p.servo4_data_ ∧
    p.as_list.getD 5 0 = p.servo5_data_ ∧
    p.as_list.getD 6 0 = p.servo6_data_ ∧
    PubServoInfo.mkDefault.as_list = List.replicate 7 0 :=
  ⟨rfl, rfl, rfl, rfl, rfl, rfl, rfl, rfl, rfl⟩

/-- C10: each operation's newly published wire strings are a function of
the arguments and the current counter value only — two controllers with
equal counters produce byte-identical payload strings for equal calls. -/
theorem c10_deterministic (st1 st2 : D1ArmController) (op : Op)
    (h : st1.seq = st2.seq) :
    ((applyOp st1 op).sent.drop st1.sent.length).map wireOf =
      ((applyOp st2 op).sent.drop st2.sent.length).map wireOf := by
  rw [applyOp_sent, applyOp_sent, List.drop_left, List.drop_left, h]

theorem c10_deterministic_witness :
    D1ArmController.init.seq = (⟨0, [], []⟩ : D1ArmController).seq ∧
    ((applyOp D1ArmController.init .goToZero).sent.drop
        D1ArmController.init.sent.length).map wireOf =
      ((applyOp (⟨0, [], []⟩ : D1ArmController) .goToZero).sent.drop
        (⟨0, [], []⟩ : D1ArmController).sent.length).map wireOf :=
  ⟨rfl, c10_deterministic D1ArmController.init ⟨0, [], []⟩ .goToZero rfl⟩
